import Mathlib

/-!
Verification of `scripts/create-github-issues.py`.

The script is embedded shallowly:

* `get_repo_info` models the resolver built on
  `re.search(r"github\.com[:/]([^/]+)/([^/]+?)(?:\.git)?$", url)` applied to
  the stripped stdout of `git config --get remote.origin.url`.  The regex
  search is modelled exactly: `searchRepo` tries every suffix of the input
  (leftmost match), `matchHere` matches the literal host `github.com`
  followed by `:` or `/`, a greedy slash-free owner group, a `/`, and a lazy
  slash-free name group followed by an optional literal `.git` and the end
  of the string.  The lazy group together with the optional suffix amounts
  to stripping one trailing `.git` unless that would leave the name empty
  (`stripGit`).
* `create_issue` models the submitter: the HTTP world is an oracle value
  (`HttpResult`); a 2xx response returns the parsed body, an
  `urllib.error.HTTPError` is re-raised as
  `Exception("Failed to create issue '<title>': <code> - <body>")`, and any
  other (network-level) exception propagates unchanged.
* `runBatch` models the submission loop of `main`: one attempt per payload
  in list order, successes and failures appended to `created` / `failed`,
  with the printed "[i/N] Creating issue" lines recorded as the `attempts`
  trace.
* `mainRun` models the control flow of `main`: token check, resolution,
  two-element unpack of "owner/repo", confirmation prompt, batch loop.
  The hardcoded nine-element issue list is abstracted as a parameter: no
  claim depends on its literal contents.
-/

namespace CreateGithubIssues

/-- Characters of the literal host in the regex `github\.com`. -/
def ghHost : List Char := ['g', 'i', 't', 'h', 'u', 'b', '.', 'c', 'o', 'm']

/-- The lazy group `([^/]+?)` followed by `(?:\.git)?$`: the shortest
nonempty prefix of `name` whose remainder is `""` or `".git"`.  This strips
one trailing `.git` unless the part before it would be empty. -/
def stripGit (name : List Char) : List Char :=
  if 5 ≤ name.length ∧ name.reverse.take 4 = ['t', 'i', 'g', '.'] then
    (name.reverse.drop 4).reverse
  else name

/-- After `github.com[:/]` the regex matches `([^/]+)/([^/]+?)(?:\.git)?$`:
a greedy slash-free owner, a slash, and a slash-free tail handled by
`stripGit`.  Returns the two capture groups. -/
def parseOwnerRepo (rest : List Char) : Option (List Char × List Char) :=
  match rest.dropWhile (fun c => c != '/') with
  | [] => none
  | _ :: tail =>
    if (rest.takeWhile (fun c => c != '/')).isEmpty then none
    else if tail.isEmpty then none
    else if tail.any (fun c => c == '/') then none
    else some (rest.takeWhile (fun c => c != '/'), stripGit tail)

/-- One attempt of the regex at the current position: the next ten
characters must be `github.com`, the following character `:` or `/`, and the
remainder must parse as `owner/name`. -/
def matchHere (cs : List Char) : Option (List Char × List Char) :=
  if cs.take 10 = ghHost then
    match cs.drop 10 with
    | c :: rest => if c = ':' ∨ c = '/' then parseOwnerRepo rest else none
    | [] => none
  else none

/-- `re.search`: try the pattern at every position, leftmost match wins. -/
def searchRepo : List Char → Option (List Char × List Char)
  | [] => none
  | c :: cs =>
    match matchHere (c :: cs) with
    | some r => some r
    | none => searchRepo cs

/-- Python `str.isspace()` for a single character: the 29 Unicode code
points CPython treats as whitespace (bidirectional classes WS, B, S and
category Zs): U+0009-U+000D, U+001C-U+001F, U+0020, U+0085, U+00A0,
U+1680, U+2000-U+200A, U+2028, U+2029, U+202F, U+205F, U+3000. -/
def pyIsSpace (c : Char) : Bool :=
  ([0x09, 0x0A, 0x0B, 0x0C, 0x0D, 0x1C, 0x1D, 0x1E, 0x1F, 0x20, 0x85, 0xA0,
    0x1680, 0x2000, 0x2001, 0x2002, 0x2003, 0x2004, 0x2005, 0x2006, 0x2007,
    0x2008, 0x2009, 0x200A, 0x2028, 0x2029, 0x202F, 0x205F, 0x3000] : List Nat).contains c.toNat

/-- Python `str.strip()`: drop the characters of `str.isspace()` from both
ends. -/
def pstrip (cs : List Char) : List Char :=
  ((cs.dropWhile pyIsSpace).reverse.dropWhile pyIsSpace).reverse

/-- Outcome of `git config --get remote.origin.url`: the captured stdout, or
a `CalledProcessError`. -/
inductive GitResult where
  | ok (stdout : String)
  | err
  deriving DecidableEq

/-- `get_repo_info`: strip the stdout, search for the pattern, return
`"owner/name"`, and raise `ValueError` (modelled as `Except.error`) when the
subprocess fails or the URL does not match. -/
def get_repo_info : GitResult → Except String String
  | .err => .error "Could not determine repository. Make sure you\x27re in a git repository."
  | .ok stdout =>
    match searchRepo (pstrip stdout.toList) with
    | some (o, r) => .ok (String.mk o ++ "/" ++ String.mk r)
    | none => .error ("Could not parse repository URL: " ++ String.mk (pstrip stdout.toList))

/-- One entry of the hardcoded `issues` list: title, body, labels. -/
structure IssuePayload where
  title : String
  body : String
  labels : List String
  deriving DecidableEq

/-- The JSON object of a successful response, restricted to the fields the
script reads with `result.get(...)` (absent fields give `None`). -/
structure IssueResponse where
  number : Option Nat
  rtitle : Option String
  html_url : Option String
  deriving DecidableEq

/-- What the HTTP world does for one `urllib.request.urlopen` call:
a response that `urlopen` returns (2xx, after redirects), an
`urllib.error.HTTPError` with status code and body, or a network-level
exception (DNS failure, connection refused, ...) with its message. -/
inductive HttpResult where
  | success (status : Nat) (resp : IssueResponse)
  | httpError (code : Nat) (respBody : String)
  | netError (msg : String)
  deriving DecidableEq

/-- `create_issue`: returns the parsed response body; re-raises an
`HTTPError` as `Exception("Failed to create issue '<title>': <code> - <body>")`;
lets any other exception propagate with its own message. -/
def create_issue (title : String) (out : HttpResult) : Except String IssueResponse :=
  match out with
  | .success _ resp => .ok resp
  | .httpError code respBody =>
    .error ("Failed to create issue \x27" ++ title ++ "\x27: " ++ toString code ++ " - " ++ respBody)
  | .netError msg => .error msg

/-- One element of the `created` accumulator. -/
structure CreatedRec where
  number : Option Nat
  title : Option String
  url : Option String
  deriving DecidableEq

/-- One element of the `failed` accumulator: the payload title and `str(e)`. -/
structure FailedRec where
  title : String
  error : String
  deriving DecidableEq

/-- The loop state: the two accumulators plus the trace of payload titles in
the order their `"[i/N] Creating issue"` line was printed. -/
structure BatchState where
  created : List CreatedRec
  failed : List FailedRec
  attempts : List String
  deriving DecidableEq

/-- One iteration of the submission loop: print the attempt line, call
`create_issue`, and append to `created` or to `failed`. -/
def submitOne (st : BatchState) (p : IssuePayload) (out : HttpResult) : BatchState :=
  let st := { st with attempts := st.attempts ++ [p.title] }
  match create_issue p.title out with
  | .ok r => { st with created := st.created ++ [⟨r.number, r.rtitle, r.html_url⟩] }
  | .error e => { st with failed := st.failed ++ [⟨p.title, e⟩] }

/-- The submission loop from state `st`, submitting payload `p` at position
`i` against `oracle i`. -/
def runBatchAux (oracle : Nat → HttpResult) : Nat → BatchState → List IssuePayload → BatchState
  | _, st, [] => st
  | i, st, p :: ps => runBatchAux oracle (i + 1) (submitOne st p (oracle i)) ps

/-- The whole `for i, issue in enumerate(issues, 1)` loop of `main`, with
the HTTP world given by `oracle` (payload at position `k` gets `oracle k`,
counting from 0). -/
def runBatch (issues : List IssuePayload) (oracle : Nat → HttpResult) : BatchState :=
  runBatchAux oracle 0 { created := [], failed := [], attempts := [] } issues

/-- The created records the loop at position `i` onward would accumulate. -/
def collectCreated (oracle : Nat → HttpResult) : Nat → List IssuePayload → List CreatedRec
  | _, [] => []
  | i, p :: ps =>
    (match create_issue p.title (oracle i) with
      | .ok r => [⟨r.number, r.rtitle, r.html_url⟩]
      | .error _ => []) ++ collectCreated oracle (i + 1) ps

/-- The failure records the loop at position `i` onward would accumulate. -/
def collectFailed (oracle : Nat → HttpResult) : Nat → List IssuePayload → List FailedRec
  | _, [] => []
  | i, p :: ps =>
    (match create_issue p.title (oracle i) with
      | .ok _ => []
      | .error e => [⟨p.title, e⟩]) ++ collectFailed oracle (i + 1) ps

/-- Python `"owner/repo".split("/")` on a character list. -/
def splitSlash : List Char → List (List Char)
  | [] => [[]]
  | c :: cs =>
    if c = '/' then [] :: splitSlash cs
    else
      match splitSlash cs with
      | [] => [[c]]
      | h :: t => (c :: h) :: t

/-- What `input()` at the confirmation prompt does: return a line, or raise
`KeyboardInterrupt`. -/
inductive PromptResult where
  | enter
  | interrupt
  deriving DecidableEq

/-- Observable outcome of one run of `main`: the process exit status,
whether `get_repo_info` was invoked, how many HTTP requests were issued, and
the final accumulators. -/
structure RunOutcome where
  exitCode : Nat
  resolverInvoked : Bool
  networkCalls : Nat
  created : List CreatedRec
  failed : List FailedRec
  deriving DecidableEq

/-- `main`: check `GITHUB_TOKEN` (`os.environ.get` is `none` when unset, and
`if not token` also treats an empty string as missing), resolve the
repository, unpack `owner, repo = repo_full.split("/")` (a `ValueError` from
the unpack is caught by the same handler and exits 1), prompt when stdin is
a tty (an interrupt exits 0), then run the batch — one HTTP call per
payload — and exit 0. -/
def mainRun (token : Option String) (git : GitResult) (istty : Bool)
    (prompt : PromptResult) (issues : List IssuePayload)
    (oracle : Nat → HttpResult) : RunOutcome :=
  match token with
  | none => { exitCode := 1, resolverInvoked := false, networkCalls := 0, created := [], failed := [] }
  | some t =>
    if t = "" then
      { exitCode := 1, resolverInvoked := false, networkCalls := 0, created := [], failed := [] }
    else
      match get_repo_info git with
      | .error _ =>
        { exitCode := 1, resolverInvoked := true, networkCalls := 0, created := [], failed := [] }
      | .ok repoFull =>
        match splitSlash repoFull.toList with
        | [_, _] =>
          if istty && prompt == PromptResult.interrupt then
            { exitCode := 0, resolverInvoked := true, networkCalls := 0, created := [], failed := [] }
          else
            let st := runBatch issues oracle
            { exitCode := 0, resolverInvoked := true, networkCalls := issues.length,
              created := st.created, failed := st.failed }
        | _ =>
          { exitCode := 1, resolverInvoked := true, networkCalls := 0, created := [], failed := [] }

/-! ### Lemmas about the submission loop -/

lemma runBatchAux_eq (oracle : Nat → HttpResult) (i : Nat) (st : BatchState)
    (ps : List IssuePayload) :
    runBatchAux oracle i st ps =
      { created := st.created ++ collectCreated oracle i ps,
        failed := st.failed ++ collectFailed oracle i ps,
        attempts := st.attempts ++ ps.map IssuePayload.title } := by
  induction ps generalizing i st with
  | nil => simp [runBatchAux, collectCreated, collectFailed]
  | cons p ps ih =>
    rw [runBatchAux, ih]
    cases h : create_issue p.title (oracle i) <;>
      simp [submitOne, collectCreated, collectFailed, h]

lemma collect_length (oracle : Nat → HttpResult) (i : Nat) (ps : List IssuePayload) :
    (collectCreated oracle i ps).length + (collectFailed oracle i ps).length = ps.length := by
  induction ps generalizing i with
  | nil => simp [collectCreated, collectFailed]
  | cons p ps ih =>
    have hrec := ih (i + 1)
    rw [collectCreated, collectFailed]
    cases h : create_issue p.title (oracle i) <;> simp [h] <;> omega

lemma mem_collectFailed (oracle : Nat → HttpResult) (i : Nat) (ps : List IssuePayload)
    (k : Nat) (hk : k < ps.length) (e : String)
    (hf : create_issue (ps.get ⟨k, hk⟩).title (oracle (i + k)) = .error e) :
    (⟨(ps.get ⟨k, hk⟩).title, e⟩ : FailedRec) ∈ collectFailed oracle i ps := by
  induction ps generalizing i k with
  | nil => exact absurd hk (Nat.not_lt_zero k)
  | cons p ps ih =>
    rw [collectFailed]
    cases k with
    | zero =>
      simp only [List.get] at hf ⊢
      rw [Nat.add_zero] at hf
      rw [hf]
      simp
    | succ k =>
      refine List.mem_append_right _ ?_
      have hk' : k < ps.length := Nat.lt_of_succ_lt_succ hk
      have hf' : create_issue (ps.get ⟨k, hk'⟩).title (oracle (i + 1 + k)) = .error e := by
        have : i + 1 + k = i + (k + 1) := by omega
        rw [this]
        exact hf
      exact ih (i + 1) k hk' hf'

lemma mem_collectCreated (oracle : Nat → HttpResult) (i : Nat) (ps : List IssuePayload)
    (k : Nat) (hk : k < ps.length) (r : IssueResponse)
    (hf : create_issue (ps.get ⟨k, hk⟩).title (oracle (i + k)) = .ok r) :
    (⟨r.number, r.rtitle, r.html_url⟩ : CreatedRec) ∈ collectCreated oracle i ps := by
  induction ps generalizing i k with
  | nil => exact absurd hk (Nat.not_lt_zero k)
  | cons p ps ih =>
    rw [collectCreated]
    cases k with
    | zero =>
      simp only [List.get] at hf ⊢
      rw [Nat.add_zero] at hf
      rw [hf]
      simp
    | succ k =>
      refine List.mem_append_right _ ?_
      have hk' : k < ps.length := Nat.lt_of_succ_lt_succ hk
      have hf' : create_issue (ps.get ⟨k, hk'⟩).title (oracle (i + 1 + k)) = .ok r := by
        have : i + 1 + k = i + (k + 1) := by omega
        rw [this]
        exact hf
      exact ih (i + 1) k hk' hf'

lemma runBatch_eq (issues : List IssuePayload) (oracle : Nat → HttpResult) :
    runBatch issues oracle =
      { created := collectCreated oracle 0 issues,
        failed := collectFailed oracle 0 issues,
        attempts := issues.map IssuePayload.title } := by
  rw [runBatch, runBatchAux_eq]
  simp

/-! ### Lemmas about the resolver -/

lemma matchHere_none_of_take (cs : List Char) (h : cs.take 10 ≠ ghHost) :
    matchHere cs = none := by
  unfold matchHere
  rw [if_neg h]

lemma toList_append (s t : String) : (s ++ t).toList = s.toList ++ t.toList :=
  String.data_append s t

lemma stripGit_subset (nm : List Char) : ∀ x ∈ stripGit nm, x ∈ nm := by
  intro x hx
  rw [stripGit] at hx
  split at hx
  · rw [List.mem_reverse] at hx
    exact List.mem_reverse.mp (List.mem_of_mem_drop hx)
  · exact hx

lemma parseOwnerRepo_no_slash (rest o r : List Char)
    (h : parseOwnerRepo rest = some (o, r)) : '/' ∉ o ∧ '/' ∉ r := by
  rw [parseOwnerRepo.eq_def] at h
  split at h
  · exact Option.noConfusion h
  · split at h
    · exact Option.noConfusion h
    · split at h
      · exact Option.noConfusion h
      · split at h
        · exact Option.noConfusion h
        · rename_i tail heq howner htail hany
          obtain ⟨rfl, rfl⟩ : rest.takeWhile (fun c => c != '/') = o ∧ stripGit tail = r := by
            have := Option.some.inj h
            exact ⟨congrArg Prod.fst this, congrArg Prod.snd this⟩
          constructor
          · intro hmem
            have := List.mem_takeWhile_imp hmem
            simp at this
          · intro hmem
            have htl : ('/' : Char) ∈ tail := stripGit_subset tail _ hmem
            rw [Bool.not_eq_true, List.any_eq_false] at hany
            have := hany '/' htl
            simp at this

lemma matchHere_no_slash (cs o r : List Char)
    (h : matchHere cs = some (o, r)) : '/' ∉ o ∧ '/' ∉ r := by
  rw [matchHere.eq_def] at h
  split at h
  · split at h
    · split at h
      · exact parseOwnerRepo_no_slash _ o r h
      · exact Option.noConfusion h
    · exact Option.noConfusion h
  · exact Option.noConfusion h

lemma searchRepo_no_slash (cs o r : List Char)
    (h : searchRepo cs = some (o, r)) : '/' ∉ o ∧ '/' ∉ r := by
  induction cs with
  | nil =>
    rw [show searchRepo [] = none from rfl] at h
    exact Option.noConfusion h
  | cons c t ih =>
    simp only [searchRepo] at h
    cases hm : matchHere (c :: t) with
    | some p =>
      rw [hm] at h
      obtain rfl : p = (o, r) := Option.some.inj h
      exact matchHere_no_slash _ o r hm
    | none =>
      rw [hm] at h
      exact ih h

lemma mk_slash_toList (o r : List Char) :
    (String.mk o ++ "/" ++ String.mk r).toList = o ++ '/' :: r := by
  rw [toList_append, toList_append, List.append_assoc]
  rfl

lemma get_repo_info_ok_inv (git : GitResult) (s : String) (h : get_repo_info git = .ok s) :
    ∃ o r, '/' ∉ o ∧ '/' ∉ r ∧ s = String.mk o ++ "/" ++ String.mk r := by
  cases git with
  | err => exact Except.noConfusion h
  | ok stdout =>
    simp only [get_repo_info] at h
    cases hs : searchRepo (pstrip stdout.toList) with
    | none =>
      rw [hs] at h
      exact Except.noConfusion h
    | some p =>
      obtain ⟨o, r⟩ := p
      rw [hs] at h
      obtain ⟨ho, hr⟩ := searchRepo_no_slash _ o r hs
      exact ⟨o, r, ho, hr, (Except.ok.inj h).symm⟩

lemma splitSlash_no_slash (r : List Char) (hr : '/' ∉ r) : splitSlash r = [r] := by
  induction r with
  | nil => rfl
  | cons c t ih =>
    have hc : c ≠ '/' := fun h => hr (h ▸ List.mem_cons_self c t)
    have ht : '/' ∉ t := fun h => hr (List.mem_cons_of_mem c h)
    rw [splitSlash, if_neg hc, ih ht]

lemma splitSlash_append (o r : List Char) (ho : '/' ∉ o) (hr : '/' ∉ r) :
    splitSlash (o ++ '/' :: r) = [o, r] := by
  induction o with
  | nil =>
    rw [List.nil_append, splitSlash, if_pos rfl, splitSlash_no_slash r hr]
  | cons c o ih =>
    have hc : c ≠ '/' := fun h => ho (h ▸ List.mem_cons_self c o)
    have ho' : '/' ∉ o := fun h => ho (List.mem_cons_of_mem c h)
    rw [List.cons_append, splitSlash, if_neg hc, ih ho']

lemma splitSlash_two_of_ok (git : GitResult) (s : String) (h : get_repo_info git = .ok s) :
    ∃ a b, splitSlash s.toList = [a, b] := by
  obtain ⟨o, r, ho, hr, rfl⟩ := get_repo_info_ok_inv git s h
  rw [mk_slash_toList]
  exact ⟨o, r, splitSlash_append o r ho hr⟩

/-! ### Claim theorems -/

/-- C2: for every batch of N payloads reaching the submission loop, each
payload yields exactly one record, so created-count plus failed-count is N,
and the attempts happen exactly in declared payload order. -/
theorem batch_counts_and_order (issues : List IssuePayload) (oracle : Nat → HttpResult) :
    (runBatch issues oracle).created.length + (runBatch issues oracle).failed.length
      = issues.length ∧
    (runBatch issues oracle).attempts = issues.map IssuePayload.title := by
  rw [runBatch_eq]
  exact ⟨collect_length oracle 0 issues, rfl⟩

/-- C3: a submission failure for payload k is caught at the item level,
recorded as a Failure record, and every payload is still attempted, in
order — a single failure never aborts the batch. -/
theorem failure_does_not_abort (issues : List IssuePayload) (oracle : Nat → HttpResult)
    (k : Nat) (hk : k < issues.length) (e : String)
    (hf : create_issue (issues.get ⟨k, hk⟩).title (oracle k) = .error e) :
    (⟨(issues.get ⟨k, hk⟩).title, e⟩ : FailedRec) ∈ (runBatch issues oracle).failed ∧
    (runBatch issues oracle).attempts = issues.map IssuePayload.title := by
  rw [runBatch_eq]
  refine ⟨?_, rfl⟩
  exact mem_collectFailed oracle 0 issues k hk e (by rw [Nat.zero_add]; exact hf)

/-- C3 witness: with two payloads and a failure on the first, the failure is
recorded and the second payload is still attempted. -/
theorem failure_does_not_abort_witness :
    (0 < ([⟨"A", "a", []⟩, ⟨"B", "b", []⟩] : List IssuePayload).length) ∧
    (⟨"A", "boom"⟩ : FailedRec) ∈ (runBatch [⟨"A", "a", []⟩, ⟨"B", "b", []⟩]
      (fun n => if n = 0 then .netError "boom"
        else .success 200 ⟨some 1, some "B", some "u"⟩)).failed ∧
    (runBatch [⟨"A", "a", []⟩, ⟨"B", "b", []⟩]
      (fun n => if n = 0 then .netError "boom"
        else .success 200 ⟨some 1, some "B", some "u"⟩)).attempts = ["A", "B"] :=
  ⟨by decide, by
    have h := failure_does_not_abort [⟨"A", "a", []⟩, ⟨"B", "b", []⟩]
      (fun n => if n = 0 then .netError "boom"
        else .success 200 ⟨some 1, some "B", some "u"⟩) 0 (by decide) "boom" rfl
    exact ⟨h.1, h.2⟩⟩

/-- C4 (amended): every `HTTPError` response makes `create_issue` raise once,
without retry, carrying the status code and the raw body; the loop records a
Failure record whose error message is
`Failed to create issue '<title>': <code> - <body>`, and continues. -/
theorem http_error_failure_record (issues : List IssuePayload) (oracle : Nat → HttpResult)
    (k : Nat) (hk : k < issues.length) (code : Nat) (respBody : String)
    (ho : oracle k = .httpError code respBody) :
    (⟨(issues.get ⟨k, hk⟩).title,
        "Failed to create issue \x27" ++ (issues.get ⟨k, hk⟩).title ++ "\x27: "
          ++ toString code ++ " - " ++ respBody⟩ : FailedRec)
      ∈ (runBatch issues oracle).failed ∧
    (runBatch issues oracle).attempts = issues.map IssuePayload.title := by
  rw [runBatch_eq]
  refine ⟨?_, rfl⟩
  apply mem_collectFailed oracle 0 issues k hk
  rw [Nat.zero_add, ho]
  rfl

/-- C4 counterexample: when the second payload "T2" receives HTTP 422 with
body `{"message":"Validation Failed"}`, the recorded error message is the
full `Failed to create issue 'T2': 422 - ...` string, not the bare
`422 - ...` string the claim asserts. -/
theorem http_error_failure_record_cex :
    ((runBatch [⟨"T1", "b1", []⟩, ⟨"T2", "b2", []⟩, ⟨"T3", "b3", []⟩]
        (fun n => if n = 1
          then .httpError 422 "\x7b\"message\":\"Validation Failed\"\x7d"
          else .success 201 ⟨some 42, some "X", some "u"⟩)).failed
      = [⟨"T2", "Failed to create issue \x27T2\x27: 422 - \x7b\"message\":\"Validation Failed\"\x7d"⟩]) ∧
    "Failed to create issue \x27T2\x27: 422 - \x7b\"message\":\"Validation Failed\"\x7d"
      ≠ "422 - \x7b\"message\":\"Validation Failed\"\x7d" := by
  constructor
  · rfl
  · decide

/-- C4 witness: instantiating the amended theorem at the 422 example. -/
theorem http_error_failure_record_witness :
    ((fun n => if n = 1
        then HttpResult.httpError 422 "\x7b\"message\":\"Validation Failed\"\x7d"
        else HttpResult.success 201 ⟨some 42, some "X", some "u"⟩) 1
      = HttpResult.httpError 422 "\x7b\"message\":\"Validation Failed\"\x7d") ∧
    (⟨"T2", "Failed to create issue \x27T2\x27: 422 - \x7b\"message\":\"Validation Failed\"\x7d"⟩
        : FailedRec)
      ∈ (runBatch [⟨"T1", "b1", []⟩, ⟨"T2", "b2", []⟩, ⟨"T3", "b3", []⟩]
        (fun n => if n = 1
          then .httpError 422 "\x7b\"message\":\"Validation Failed\"\x7d"
          else .success 201 ⟨some 42, some "X", some "u"⟩)).failed :=
  ⟨rfl, by
    have h := http_error_failure_record [⟨"T1", "b1", []⟩, ⟨"T2", "b2", []⟩, ⟨"T3", "b3", []⟩]
      (fun n => if n = 1
        then .httpError 422 "\x7b\"message\":\"Validation Failed\"\x7d"
        else .success 201 ⟨some 42, some "X", some "u"⟩)
      1 (by decide) 422 "\x7b\"message\":\"Validation Failed\"\x7d" rfl
    exact h.1⟩

/-- C5: every 2xx response is parsed and appended to `created` as a Success
record carrying the issue number, title, and URL from the response body. -/
theorem success_creates_record (issues : List IssuePayload) (oracle : Nat → HttpResult)
    (k : Nat) (hk : k < issues.length) (status : Nat) (resp : IssueResponse)
    (ho : oracle k = .success status resp) (h2xx : 200 ≤ status ∧ status < 300) :
    (⟨resp.number, resp.rtitle, resp.html_url⟩ : CreatedRec)
      ∈ (runBatch issues oracle).created := by
  rw [runBatch_eq]
  apply mem_collectCreated oracle 0 issues k hk resp
  rw [Nat.zero_add, ho]
  rfl

/-- C5 witness: the spec example — HTTP 201 with number 42, title "X" and
html_url of issue 42 — lands in `created` as `{42, "X", url}`. -/
theorem success_creates_record_witness :
    (200 ≤ 201 ∧ 201 < 300) ∧
    (⟨some 42, some "X", some "https://github.com/acme/dnd-tool/issues/42"⟩ : CreatedRec)
      ∈ (runBatch [⟨"X", "b", []⟩]
        (fun _ => .success 201
          ⟨some 42, some "X", some "https://github.com/acme/dnd-tool/issues/42"⟩)).created :=
  ⟨by decide,
    success_creates_record [⟨"X", "b", []⟩]
      (fun _ => .success 201
        ⟨some 42, some "X", some "https://github.com/acme/dnd-tool/issues/42"⟩)
      0 (by decide) 201
      ⟨some 42, some "X", some "https://github.com/acme/dnd-tool/issues/42"⟩
      rfl (by decide)⟩

/-- C6: a missing credential makes the process exit with status 1 before the
resolver is invoked and before any network call. -/
theorem missing_token_aborts (git : GitResult) (istty : Bool) (prompt : PromptResult)
    (issues : List IssuePayload) (oracle : Nat → HttpResult) :
    mainRun none git istty prompt issues oracle
      = { exitCode := 1, resolverInvoked := false, networkCalls := 0,
          created := [], failed := [] } :=
  rfl

/-- C7: in an interactive run, an interrupt at the confirmation prompt exits
with status 0, with `created` and `failed` empty and no network calls. -/
theorem interrupt_prompt_clean_exit (t : String) (git : GitResult) (s : String)
    (issues : List IssuePayload) (oracle : Nat → HttpResult)
    (ht : t ≠ "") (hres : get_repo_info git = .ok s) :
    mainRun (some t) git true .interrupt issues oracle
      = { exitCode := 0, resolverInvoked := true, networkCalls := 0,
          created := [], failed := [] } := by
  obtain ⟨a, b, hsplit⟩ := splitSlash_two_of_ok git s hres
  simp only [mainRun]
  rw [if_neg ht]
  simp only [hres, hsplit]
  rfl

/-- C7 witness: a concrete interactive run interrupted at the prompt. -/
theorem interrupt_prompt_clean_exit_witness :
    ("tok" ≠ "") ∧
    mainRun (some "tok") (.ok "git@github.com:acme/dnd-tool") true .interrupt
        [⟨"A", "a", []⟩] (fun _ => .netError "unreached")
      = { exitCode := 0, resolverInvoked := true, networkCalls := 0,
          created := [], failed := [] } :=
  ⟨by decide,
    interrupt_prompt_clean_exit "tok" (.ok "git@github.com:acme/dnd-tool") "acme/dnd-tool"
      [⟨"A", "a", []⟩] (fun _ => .netError "unreached") (by decide) rfl⟩

/-- C8: whenever the resolver fails — the underlying git query fails or the
remote URL does not match the pattern — the run exits with status 1 and the
batch never issues a network call. -/
theorem resolution_error_aborts (t : String) (git : GitResult) (istty : Bool)
    (prompt : PromptResult) (issues : List IssuePayload) (oracle : Nat → HttpResult)
    (ht : t ≠ "")
    (hfail : git = .err ∨ ∃ url, git = .ok url ∧ searchRepo (pstrip url.toList) = none) :
    (∃ e, get_repo_info git = .error e) ∧
    mainRun (some t) git istty prompt issues oracle
      = { exitCode := 1, resolverInvoked := true, networkCalls := 0,
          created := [], failed := [] } := by
  have hex : ∃ e, get_repo_info git = .error e := by
    rcases hfail with rfl | ⟨url, rfl, hnone⟩
    · exact ⟨_, rfl⟩
    · exact ⟨"Could not parse repository URL: " ++ String.mk (pstrip url.toList), by
        simp only [get_repo_info, hnone]⟩
  obtain ⟨e, he⟩ := hex
  refine ⟨⟨e, he⟩, ?_⟩
  simp only [mainRun]
  rw [if_neg ht]
  simp only [he]

/-- C8 witness: an unparseable (non-github.com) remote URL and a failing git
query both abort with exit status 1 and zero network calls. -/
theorem resolution_error_aborts_witness :
    ("tok" ≠ "") ∧
    mainRun (some "tok") (.ok "https://gitlab.com/a/b.git") true .enter
        [⟨"A", "a", []⟩] (fun _ => .netError "unreached")
      = { exitCode := 1, resolverInvoked := true, networkCalls := 0,
          created := [], failed := [] } ∧
    mainRun (some "tok") .err true .enter
        [⟨"A", "a", []⟩] (fun _ => .netError "unreached")
      = { exitCode := 1, resolverInvoked := true, networkCalls := 0,
          created := [], failed := [] } :=
  ⟨by decide,
    (resolution_error_aborts "tok" (.ok "https://gitlab.com/a/b.git") true .enter
      [⟨"A", "a", []⟩] (fun _ => .netError "unreached") (by decide)
      (Or.inr ⟨"https://gitlab.com/a/b.git", rfl, rfl⟩)).2,
    (resolution_error_aborts "tok" .err true .enter
      [⟨"A", "a", []⟩] (fun _ => .netError "unreached") (by decide) (Or.inl rfl)).2⟩

/-- C9: every string the resolver returns contains exactly one slash — both
capture groups exclude `/` — so `owner, repo = repo_full.split("/")` always
unpacks into exactly two parts. -/
theorem resolver_result_single_slash (git : GitResult) (s : String)
    (h : get_repo_info git = .ok s) :
    s.toList.count '/' = 1 ∧ (splitSlash s.toList).length = 2 := by
  obtain ⟨o, r, ho, hr, rfl⟩ := get_repo_info_ok_inv git s h
  rw [mk_slash_toList]
  constructor
  · rw [List.count_append, List.count_cons_self, List.count_eq_zero.mpr ho,
      List.count_eq_zero.mpr hr]
  · rw [splitSlash_append o r ho hr]
    rfl

/-- C9 witness: the resolver output for a concrete github URL has one slash
and splits into two parts. -/
theorem resolver_result_single_slash_witness :
    get_repo_info (.ok "git@github.com:acme/dnd-tool") = .ok "acme/dnd-tool" ∧
    ("acme/dnd-tool" : String).toList.count '/' = 1 ∧
    (splitSlash ("acme/dnd-tool" : String).toList).length = 2 :=
  ⟨rfl, resolver_result_single_slash (.ok "git@github.com:acme/dnd-tool") "acme/dnd-tool" rfl⟩

/-- C10: a network-level exception passes through `create_issue` with its
raw message — no "Failed to create issue" formatting — but is still caught
by the loop, recorded as a Failure record with that raw text, and every
payload is still attempted. -/
theorem network_error_isolation (issues : List IssuePayload) (oracle : Nat → HttpResult)
    (k : Nat) (hk : k < issues.length) (m : String) (ho : oracle k = .netError m) :
    create_issue (issues.get ⟨k, hk⟩).title (oracle k) = .error m ∧
    (⟨(issues.get ⟨k, hk⟩).title, m⟩ : FailedRec) ∈ (runBatch issues oracle).failed ∧
    (runBatch issues oracle).attempts = issues.map IssuePayload.title := by
  refine ⟨by rw [ho]; rfl, ?_, ?_⟩
  · rw [runBatch_eq]
    apply mem_collectFailed oracle 0 issues k hk m
    rw [Nat.zero_add, ho]
    rfl
  · rw [runBatch_eq]

/-- C10 witness: a DNS-style failure on the first of two payloads is recorded
with its raw message and the second payload is still attempted. -/
theorem network_error_isolation_witness :
    ((fun n => if n = 0 then HttpResult.netError "connection refused"
        else HttpResult.success 200 ⟨some 1, some "B", some "u"⟩) 0
      = HttpResult.netError "connection refused") ∧
    create_issue "A" (HttpResult.netError "connection refused")
      = .error "connection refused" ∧
    (⟨"A", "connection refused"⟩ : FailedRec) ∈ (runBatch [⟨"A", "a", []⟩, ⟨"B", "b", []⟩]
      (fun n => if n = 0 then HttpResult.netError "connection refused"
        else HttpResult.success 200 ⟨some 1, some "B", some "u"⟩)).failed :=
  ⟨rfl, by
    have h := network_error_isolation [⟨"A", "a", []⟩, ⟨"B", "b", []⟩]
      (fun n => if n = 0 then HttpResult.netError "connection refused"
        else HttpResult.success 200 ⟨some 1, some "B", some "u"⟩)
      0 (by decide) "connection refused" rfl
    exact ⟨h.1, h.2.1⟩⟩

end CreateGithubIssues
